import Mathlib

/-!
Shallow embedding of the user-management service
(repository `user_management_service`), covering the components that the
verified claims are about:

* the credential hasher (`src/utils/password_manager.py`),
* the token issuer and the JWT payloads (`src/utils/jwt_manager.py`,
  `AuthService._create_user_tokens` in `src/services/auth.py`),
* the Redis-backed session store and the refresh rotation
  (`AuthService.process_token_refresh` in `src/services/auth.py`),
* login (`AuthService.authenticate_user`),
* the bearer dependency (`get_current_user` in
  `src/api/dependencies/auth.py`),
* the authorization check (`UserService.check_user_access_permissions`),
  self-update (`UserService.update_user` together with the
  `PATCH /user/me` route), the listing sort fallback
  (`UserService.get_all_users`), and the password-reset endpoint
  (`reset_password` in `src/api/routes/auth.py`).

Conventions: Python exceptions become `Except` errors; the async database
and Redis sessions become explicit state (`List User` for the user table,
`RedisState` for the key-value store); randomly generated tokens and the
current time are passed in as parameters; a JWT access token is
represented by its decoded payload (an association list of claims), since
signing is injective on payloads for a fixed secret.
-/

namespace UMS

/-- Role enumeration from `src/db/models/user.py` (`class Role(StrEnum)`). -/
inductive Role
  | USER
  | ADMIN
  | MODERATOR
deriving DecidableEq, Repr

/-- A stored password hash, as handed to passlib.  `bcrypt ofPlain` stands
for a well-formed bcrypt hash of the plaintext `ofPlain` (bcrypt hashes are
self-describing, salted strings; equality of plaintexts is what `verify`
decides, so the salt is abstracted away); `malformed raw` stands for any
string that no configured passlib scheme can identify as a hash. -/
inductive BcryptHash
  | bcrypt (ofPlain : String)
  | malformed (raw : String)
deriving DecidableEq, Repr

/-- The `users` table row from `src/db/models/user.py`.  `id` is the UUID
rendered as a string (Redis stores `str(user.id)`), timestamps are
abstract ticks. -/
structure User where
  id : String
  name : String
  surname : String
  username : String
  password : BcryptHash
  phone_number : Option String
  email : String
  role : Role
  image_s3_path : Option String
  is_blocked : Bool
  created_at : Nat
  modified_at : Nat
  group_id : Option Int
deriving DecidableEq, Repr

/-- Error raised by passlib when a hash string cannot be identified. -/
inductive UnknownHashError
  | unknownHash
deriving DecidableEq, Repr

/-- Modelled from the interface of the external passlib dependency
(`CryptContext(schemes=["bcrypt"]).verify`), which is not part of this
repository: on a well-formed bcrypt hash it returns whether the plaintext
matches; on a string it cannot identify as a hash of any configured
scheme it raises `UnknownHashError` (a `ValueError`), as its documentation
states.  The repository calls it directly. -/
def cryptContextVerify (plain : String) (hashed : BcryptHash) :
    Except UnknownHashError Bool :=
  match hashed with
  | .bcrypt p => .ok (decide (p = plain))
  | .malformed _ => .error .unknownHash

/-- `PasswordManager.get_hash` (`src/utils/password_manager.py`, lines
8-10): `self.pwd_context.hash(password)`. -/
def get_hash (password : String) : BcryptHash :=
  .bcrypt password

/-- `PasswordManager.verify_password` (`src/utils/password_manager.py`,
lines 12-16): `return self.pwd_context.verify(plain_password,
hashed_password)` — a bare delegation with no exception handling, so a
passlib error propagates to the caller. -/
def verify_password (plain_password : String) (hashed_password : BcryptHash) :
    Except UnknownHashError Bool :=
  cryptContextVerify plain_password hashed_password

/-- Value stored under one JWT claim key.  `optInt` covers the nullable
`group_id` column, `natV` the numeric `exp` timestamp. -/
inductive ClaimValue
  | str (s : String)
  | roleV (r : Role)
  | optInt (g : Option Int)
  | natV (n : Nat)
deriving DecidableEq, Repr

/-- A decoded JWT payload: a Python dict, in insertion order. -/
abbrev Payload : Type := List (String × ClaimValue)

/-- Dict lookup `payload.get(key)`. -/
def payloadGet (p : Payload) (key : String) : Option ClaimValue :=
  List.lookup key p

/-- Python truthiness of `payload.get(key)`: `None`, the empty string,
and zero are falsy; an enum member is truthy. -/
def truthy : Option ClaimValue → Bool
  | none => false
  | some (.str s) => !(s = "")
  | some (.roleV _) => true
  | some (.optInt g) =>
    match g with
    | none => false
    | some i => !(i = 0)
  | some (.natV n) => !(n = 0)

/-- `settings.JWT_EXPIRE_MINUTES` (`src/settings.py`): `30 * 60`. -/
def JWT_EXPIRE_MINUTES : Nat := 30 * 60

/-- `settings.JWT_EXPIRE_DAYS` (`src/settings.py`): `7`. -/
def JWT_EXPIRE_DAYS : Nat := 7

/-- The access-token payload built by `AuthService._create_user_tokens`
(`src/services/auth.py`, lines 90-96) and completed by
`JWTManager._create_jwt_token` (`src/utils/jwt_manager.py`, lines 26-43):
the caller dict `{"sub": user.username, "role": user.role, "group_id":
user.group_id}` is copied and `{"exp": now + expires_delta}` is added.
The expiry delta is `timedelta(minutes=JWT_EXPIRE_MINUTES)`, in seconds.
No other claim — in particular no `"id"` claim — is ever inserted. -/
def jwtPayload (u : User) (now : Nat) : Payload :=
  [("sub", .str u.username),
   ("role", .roleV u.role),
   ("group_id", .optInt u.group_id),
   ("exp", .natV (now + JWT_EXPIRE_MINUTES * 60))]

/-- The token envelope returned by `AuthService._create_user_tokens`
(`TokenResponse` in `src/schemas/auth.py`); the access token is
represented by its payload. -/
structure TokenResponse where
  access_token : Payload
  refresh_token : String
deriving DecidableEq, Repr

/-- State of the Redis session store: the forward family
`refresh_token:<token> -> user_id` and the blacklist family
`blacklist:<token> -> ttl` (the recorded TTL of the sentinel value). -/
structure RedisState where
  forward : String → Option String
  black : String → Option Nat

/-- `AuthService._create_user_tokens` (`src/services/auth.py`, lines
87-117): mint the payload, take the freshly generated opaque refresh
token (`secrets.token_hex`, passed in here as `tNew`), and register
`refresh_token:<tNew> -> str(user.id)` with TTL
`JWT_EXPIRE_DAYS * 86400`.  The Redis write is assumed to succeed (its
failure path is a 500 with no state change). -/
def create_user_tokens (u : User) (tNew : String) (now : Nat)
    (s : RedisState) : RedisState × TokenResponse :=
  ({ s with forward := fun x => if x = tNew then some u.id else s.forward x },
   { access_token := jwtPayload u now, refresh_token := tNew })

/-- The two distinct failure branches of refresh rotation in
`AuthService.process_token_refresh` (`src/services/auth.py`, lines
125-141): `tokenRevoked` is the `InvalidTokenError("Invalid or expired
token")` raised when `blacklist:<token>` exists, `tokenUnknown` the
`InvalidTokenError("Invalid token")` raised when no
`refresh_token:<token>` mapping exists.  These are the session-store
failure kinds the spec names TokenRevoked and TokenUnknown. -/
inductive RotateError
  | tokenRevoked
  | tokenUnknown
deriving DecidableEq, Repr

/-- Grace TTL of the blacklist sentinel: the literal `3600` in
`redis_client.setex(f"blacklist:{refresh_token}", 3600, "blacklisted")`
(`src/services/auth.py`, line 139-141). -/
def BLACKLIST_GRACE_TTL : Nat := 3600

/-- The session-store rotation step of `AuthService.process_token_refresh`
(`src/services/auth.py`, lines 125-141), i.e. the spec's
`rotate(old_refresh_token) -> user_id`: check `exists
blacklist:<token>` first and fail revoked; then `get
refresh_token:<token>` and fail unknown when absent; otherwise delete the
forward mapping, set the blacklist sentinel with TTL 3600, and return the
stored user id together with the updated store. -/
def rotate (s : RedisState) (t : String) :
    Except RotateError (String × RedisState) :=
  if (s.black t).isSome then
    .error .tokenRevoked
  else
    match s.forward t with
    | none => .error .tokenUnknown
    | some user_id =>
      .ok (user_id,
        { forward := fun x => if x = t then none else s.forward x,
          black := fun x => if x = t then some BLACKLIST_GRACE_TTL
                            else s.black x })

/-- Caller-visible failures of `AuthService.process_token_refresh`:
both rotation failures are raised as the same `InvalidTokenError` class
(`invalidToken`); `userNotFound` is the `UserNotFoundError` raised when
the user id under the rotated token no longer exists. -/
inductive RefreshError
  | invalidToken
  | userNotFound
deriving DecidableEq, Repr

/-- `AuthService.get_user_by_id` (`src/services/auth.py`, lines 151-153):
primary-key lookup in the users table. -/
def get_user_by_id (db : List User) (user_id : String) : Option User :=
  db.find? (fun u => u.id == user_id)

/-- `AuthService.process_token_refresh` (`src/services/auth.py`, lines
119-149).  `tNew` is the fresh opaque token that
`secrets.token_hex` generates inside `_create_user_tokens`, `now` the
clock reading at minting.  The result pairs the Redis state after the
call with the outcome; note that the source deletes and blacklists the
old token *before* fetching the user, so the `userNotFound` failure
leaves the rotated state behind, while rotation failures leave the state
unchanged. -/
def process_token_refresh (db : List User) (s : RedisState)
    (tOld tNew : String) (now : Nat) :
    RedisState × Except RefreshError TokenResponse :=
  match rotate s tOld with
  | .error _ => (s, .error .invalidToken)
  | .ok (user_id, s1) =>
    match get_user_by_id db user_id with
    | none => (s1, .error .userNotFound)
    | some u =>
      let (s2, resp) := create_user_tokens u tNew now s1
      (s2, .ok resp)

/-- Failures of `AuthService.authenticate_user` (`src/services/auth.py`,
lines 56-85): `invalidCredentials` is the single HTTP 401 "Incorrect
login or password" raised both when no user matches the login and when
hash verification fails; `userBlocked` the HTTP 403; `unknownHash` an
uncaught passlib error escaping the bare `verify_password` call. -/
inductive AuthError
  | invalidCredentials
  | userBlocked
  | unknownHash
deriving DecidableEq, Repr

/-- The login lookup of `AuthService.authenticate_user`
(`src/services/auth.py`, lines 63-68): `select(User).where(or_(User.email
== login, User.username == login))` followed by `.first()` — the phone
number column is not consulted. -/
def findByEmailOrUsername (db : List User) (login : String) : Option User :=
  db.find? (fun u => u.email == login || u.username == login)

/-- `AuthService.authenticate_user` (`src/services/auth.py`, lines
56-85): find the user by email or username; `if not user or not
verify_password(...)` raise the single 401; then the blocked check
(403); on success mint and register tokens via `_create_user_tokens`.
`tNew` and `now` parametrise the token generation. -/
def authenticate_user (db : List User) (s : RedisState)
    (login password : String) (tNew : String) (now : Nat) :
    Except AuthError (RedisState × TokenResponse) :=
  match findByEmailOrUsername db login with
  | none => .error .invalidCredentials
  | some u =>
    match verify_password password u.password with
    | .error _ => .error .unknownHash
    | .ok false => .error .invalidCredentials
    | .ok true =>
      if u.is_blocked then .error .userBlocked
      else .ok (create_user_tokens u tNew now s)

/-- Failures of the bearer dependency `get_current_user`
(`src/api/dependencies/auth.py`, lines 44-68): both are HTTP 401;
`invalidTokenData` is "Invalid token data" (missing/falsy `sub` or `id`
claim), `userNotFound` is "User not found". -/
inductive BearerError
  | invalidTokenData
  | userNotFound
deriving DecidableEq, Repr

/-- `get_current_user` (`src/api/dependencies/auth.py`, lines 44-68),
applied to an already-decoded payload: read `payload.get("sub")` and
`payload.get("id")`; `if not username or not user_id` raise 401 "Invalid
token data"; otherwise look the user up by username (a non-string `sub`
value matches no username) and raise 401 "User not found" when absent. -/
def get_current_user (db : List User) (payload : Payload) :
    Except BearerError User :=
  let username := payloadGet payload "sub"
  let user_id := payloadGet payload "id"
  if !truthy username || !truthy user_id then
    .error .invalidTokenData
  else
    let uname : Option String :=
      match username with
      | some (.str s) => some s
      | _ => none
    match db.find? (fun u => some u.username == uname) with
    | none => .error .userNotFound
    | some u => .ok u

/-- Failures of `UserService.check_user_access_permissions`
(`src/services/user.py`, lines 191-209): 404 when the target is missing,
403 `NotEnoughPermissionsError` otherwise. -/
inductive AccessError
  | userNotFound
  | notEnoughPermissions
deriving DecidableEq, Repr

/-- `UserService.check_user_access_permissions` (`src/services/user.py`,
lines 191-209), the view-authorization check behind `GET
/user/{user_id}`: missing target is a 404; an actor with role USER is
rejected unconditionally (the source raises before ever comparing ids,
so even `target == current_user` is rejected); a MODERATOR is rejected
unless the group ids match; ADMIN falls through to success. -/
def check_user_access_permissions (current_user : User)
    (target_user : Option User) : Except AccessError Unit :=
  match target_user with
  | none => .error .userNotFound
  | some tgt =>
    if current_user.role = Role.USER then
      .error .notEnoughPermissions
    else if current_user.role = Role.MODERATOR
        && current_user.group_id != tgt.group_id then
      .error .notEnoughPermissions
    else
      .ok ()

/-- `UserUpdateSchema` (`src/schemas/user.py`, lines 35-63): every field
optional; `none` stands for a field not supplied in the request (pydantic
`exclude_unset`).  The schema declares `role` and `is_blocked` alongside
the profile fields — nothing strips them. -/
structure UserUpdateSchema where
  name : Option String := none
  surname : Option String := none
  username : Option String := none
  email : Option String := none
  phone_number : Option String := none
  role : Option Role := none
  is_blocked : Option Bool := none
deriving DecidableEq, Repr

/-- The field-application loop of `UserService.update_user`
(`src/services/user.py`, lines 113-127): `for field, value in
user_data.model_dump(exclude_unset=True).items(): setattr(user, field,
value)` — every supplied field is written to the stored record,
with no filtering of `role` or `is_blocked`. -/
def update_user (u : User) (d : UserUpdateSchema) : User :=
  { u with
    name := d.name.getD u.name,
    surname := d.surname.getD u.surname,
    username := d.username.getD u.username,
    email := d.email.getD u.email,
    phone_number := (d.phone_number.map some).getD u.phone_number,
    role := d.role.getD u.role,
    is_blocked := d.is_blocked.getD u.is_blocked }

/-- The `PATCH /user/me` route `update_current_user`
(`src/api/routes/user.py`, lines 43-59): it calls
`user_service.update_user(current_user.id, user_update)`, i.e. applies
the update schema to the authenticated principal's own record. -/
def update_current_user (current_user : User) (d : UserUpdateSchema) :
    User :=
  update_user current_user d

/-- The attributes mapped on the `User` model
(`src/db/models/user.py`): its columns plus the `group` relationship.
`hasattr(User, sort_by)` holds for exactly these names among the
sort-field strings the listing route admits. -/
def userModelAttributes : List String :=
  ["id", "name", "surname", "username", "password", "phone_number",
   "email", "role", "image_s3_path", "is_blocked", "created_at",
   "modified_at", "group_id", "group"]

/-- The `hasattr(User, sort_by)` test in `UserService.get_all_users`
(`src/services/user.py`, line 174). -/
def hasattrUser (field : String) : Bool :=
  userModelAttributes.contains field

/-- The sort-column selection of `UserService.get_all_users`
(`src/services/user.py`, lines 173-177): `if sort_by is not None and
hasattr(User, sort_by): order_column = getattr(User, sort_by) else:
order_column = User.created_at`.  Total — no branch raises. -/
def pickSortColumn (sort_by : Option String) : String :=
  match sort_by with
  | some s => if hasattrUser s then s else "created_at"
  | none => "created_at"

/-- The default of the `order_by` parameter in the signatures of both
`UserService.get_all_users` (`src/services/user.py`, line 153) and the
`GET /users` route (`src/api/routes/users.py`, line 32): `"asc"`. -/
def defaultOrderDirection : String := "asc"

/-- The fixed body returned by `POST /auth/reset-password`
(`src/api/routes/auth.py`, lines 188-192 and 205-208): the two adjacent
string literals of the source concatenate to this one message in both
the found and the not-found branch. -/
def RESET_RESPONSE_MESSAGE : String :=
  "If your email is registered, you will receive a password reset link"

/-- The `reset_password` route (`src/api/routes/auth.py`, lines 171-208),
abstracted over the email lookup result and over whether the RabbitMQ
publish succeeds: unknown email returns 200 with the fixed message;
known email publishes the reset message and returns 200 with the same
fixed message, or propagates a 500 when the publish raises.
`PasswordResetService.reset_password` (`src/services/password_reset.py`,
lines 43-69) has the identical branch structure. -/
def reset_password (userByEmail : Option User) (publishSucceeds : Bool) :
    Except Nat (Nat × String) :=
  match userByEmail with
  | none => .ok (200, RESET_RESPONSE_MESSAGE)
  | some _ =>
    if publishSucceeds then .ok (200, RESET_RESPONSE_MESSAGE)
    else .error 500

/-- One observable operation against the session store, for the
refresh-token lifecycle of spec section 4.4: a login registering a
freshly generated token for a user, a refresh call, and the TTL lapse of
either key family (Redis expiry). -/
inductive Op
  | login (tNew user_id : String)
  | refresh (tOld tNew : String)
  | expireForward (t : String)
  | expireBlacklist (t : String)
deriving DecidableEq, Repr

/-- `op` only ever registers tokens different from `t` — the freshness
assumption on `secrets.token_hex(64)` output (collision with a
previously seen token is the measure-zero case the source explicitly
does not handle). -/
def freshFor (t : String) : Op → Bool
  | .login tNew _ => tNew != t
  | .refresh _ tNew => tNew != t
  | .expireForward _ => true
  | .expireBlacklist _ => true

/-- Effect of one operation on the session store.  `login` performs the
registration of `_create_user_tokens`; `refresh` performs
`process_token_refresh` (a failed refresh other than a post-rotation
missing user leaves the store unchanged); the expiry operations model
Redis dropping a key whose TTL lapsed. -/
def stepOp (db : List User) (s : RedisState) : Op → RedisState
  | .login tNew user_id =>
    { s with forward := fun x => if x = tNew then some user_id
                                 else s.forward x }
  | .refresh tOld tNew => (process_token_refresh db s tOld tNew 0).1
  | .expireForward t =>
    { s with forward := fun x => if x = t then none else s.forward x }
  | .expireBlacklist t =>
    { s with black := fun x => if x = t then none else s.black x }

/-- Run a sequence of operations against the session store. -/
def execOps (db : List User) (ops : List Op) (s : RedisState) : RedisState :=
  ops.foldl (stepOp db) s

/-- Redis state with no keys. -/
def emptyRedis : RedisState :=
  { forward := fun _ => none, black := fun _ => none }

/-- Concrete sample row: a regular (role USER) principal, as created by
the signup flow of the integration tests. -/
def demoUser : User :=
  { id := "u1", name := "Alice", surname := "Doe", username := "alice",
    password := .bcrypt "password123",
    phone_number := some "+48111111111", email := "alice@example.com",
    role := .USER, image_s3_path := none, is_blocked := false,
    created_at := 0, modified_at := 0, group_id := some 1 }

/-- Concrete sample user table holding only `demoUser`. -/
def demoDb : List User := [demoUser]

/-- Concrete sample session-store state: `refresh_token:t1 -> u1`
registered, nothing blacklisted. -/
def demoStore : RedisState :=
  { forward := fun x => if x = "t1" then some "u1" else none,
    black := fun _ => none }

/-- Concrete sample operation sequence: a later login registering a
fresh token, the blacklist TTL of `t1` lapsing, a replay of `t1`, and a
refresh attempt with a never-registered token. -/
def demoOps : List Op :=
  [.login "t3" "u1", .expireBlacklist "t1",
   .refresh "t1" "t4", .refresh "t2" "t5"]

end UMS

namespace UMS

/-- C8 counterexample: the claim says `verify(plaintext, hash_string)`
never throws on a malformed hash and returns `false` instead; but
`PasswordManager.verify_password` delegates to passlib with no exception
handling, so on a string that is not a recognizable bcrypt hash the
passlib `UnknownHashError` propagates — the call does not return a
boolean at all. -/
theorem c8_counterexample :
    verify_password "password123" (BcryptHash.malformed "not-a-bcrypt-hash")
      = .error .unknownHash := by
  rfl

/-- C8 (amended): `verify_password` returns a boolean on every
well-formed bcrypt hash (true exactly when the plaintext matches), but
on a malformed hash it propagates the passlib `UnknownHashError` instead
of returning `false` — the method body has no exception handling. -/
theorem c8_verify_behaviour :
    ∀ (plain p raw : String),
      verify_password plain (BcryptHash.bcrypt p) = .ok (decide (p = plain))
      ∧ verify_password plain (BcryptHash.malformed raw)
          = .error .unknownHash := by
  intro plain p raw
  exact ⟨rfl, rfl⟩

/-- C6: the `POST /auth/reset-password` endpoint returns the same status
code 200 and the byte-identical fixed body for a registered email and
for an unregistered one (here under a successful message dispatch; a
dispatch failure is a 500 by design and independent of the email's
registration status only in the not-found branch). -/
theorem c6_reset_password_noninterference :
    ∀ (u : User),
      reset_password (some u) true = reset_password none true
      ∧ reset_password none true = .ok (200, RESET_RESPONSE_MESSAGE) := by
  intro u
  exact ⟨rfl, rfl⟩

/-- C7: the self-update behind `PATCH /user/me` applies every field set
in `UserUpdateSchema` to the principal's own record — including `role`
and `is_blocked`, which are neither stripped nor rejected; in particular
a self-update carrying `role=ADMIN` and `is_blocked=false` writes
exactly those values. -/
theorem c7_self_update_applies_all_fields :
    ∀ (u : User) (d : UserUpdateSchema),
      (update_current_user u d).name = d.name.getD u.name
      ∧ (update_current_user u d).surname = d.surname.getD u.surname
      ∧ (update_current_user u d).username = d.username.getD u.username
      ∧ (update_current_user u d).email = d.email.getD u.email
      ∧ (update_current_user u d).role = d.role.getD u.role
      ∧ (update_current_user u d).is_blocked = d.is_blocked.getD u.is_blocked
      ∧ (update_current_user u
          { role := some Role.ADMIN, is_blocked := some false }).role
          = Role.ADMIN
      ∧ (update_current_user u
          { role := some Role.ADMIN, is_blocked := some false }).is_blocked
          = false := by
  intro u d
  exact ⟨rfl, rfl, rfl, rfl, rfl, rfl, rfl, rfl⟩

/-- C10: the sort-column selection of the user listing falls back to the
creation timestamp when no sort field is given or when the given field
does not exist on the `User` model, without raising (the selection is a
total function), and the default sort direction is ascending. -/
theorem c10_sort_fallback :
    pickSortColumn none = "created_at"
    ∧ (∀ s, hasattrUser s = false → pickSortColumn (some s) = "created_at")
    ∧ defaultOrderDirection = "asc" := by
  refine ⟨rfl, ?_, rfl⟩
  intro s h
  simp [pickSortColumn, h]

/-- C10 witness: the fallback evaluated at a concrete unknown sort
field. -/
theorem c10_sort_fallback_witness :
    hasattrUser "not_a_column" = false
    ∧ pickSortColumn (some "not_a_column") = "created_at" :=
  ⟨by decide, c10_sort_fallback.2.1 "not_a_column" (by decide)⟩

/-- C2 (code bug): the view-authorization check
`check_user_access_permissions` rejects every actor of role USER before
comparing ids, so a USER viewing their own record through
`GET /user/{user_id}` is denied — although the claim (and the source's
own comment, "Users with USER role cannot access *other* user's info")
grants access when `actor.id == target.id`.  Evaluated here at the
failing input: actor and target are the same record. -/
theorem c2_user_role_denied_even_for_self :
    check_user_access_permissions demoUser (some demoUser)
      = .error .notEnoughPermissions := by
  rfl

/-- C3 (code bug): `authenticate_user` resolves the login only against
the email and username columns and raises the single 401 "Incorrect
login or password" both when nothing matches and when the password hash
does not verify.  Evaluated at the failing inputs: a login by the
registered phone number with the correct password is rejected with the
same `invalidCredentials` failure as a completely unknown login and as a
wrong password — no phone lookup and no distinct PrincipalNotFound,
contradicting the repository's own integration tests
(`tests/integration/test_auth.py` expects phone login to succeed and a
404 for an unknown login). -/
theorem c3_phone_login_rejected_and_kinds_collapsed :
    authenticate_user demoDb emptyRedis "+48111111111" "password123" "t9" 0
      = .error .invalidCredentials
    ∧ authenticate_user demoDb emptyRedis "ghost@example.com" "password123"
        "t9" 0 = .error .invalidCredentials
    ∧ authenticate_user demoDb emptyRedis "alice@example.com" "wrongpassword"
        "t9" 0 = .error .invalidCredentials := by
  refine ⟨?_, ?_, ?_⟩ <;> rfl

/-- C4: every access token minted by `_create_user_tokens` carries
exactly the claims `sub`, `role`, `group_id`, `exp` — in particular no
`id` claim — and the bearer dependency `get_current_user` answers 401
"Invalid token data" on any decoded payload whose `id` claim is absent
or falsy; consequently every minted access token is rejected by
`get_current_user`, whatever the user table holds. -/
theorem c4_minted_access_tokens_rejected_by_bearer :
    (∀ (p : Payload) (db : List User),
      truthy (payloadGet p "id") = false →
      get_current_user db p = .error .invalidTokenData)
    ∧ ∀ (u : User) (now : Nat),
        (jwtPayload u now).map Prod.fst = ["sub", "role", "group_id", "exp"]
        ∧ payloadGet (jwtPayload u now) "id" = none
        ∧ ∀ (db : List User),
            get_current_user db (jwtPayload u now)
              = .error .invalidTokenData := by
  constructor
  · intro p db h
    simp [get_current_user, h]
  · intro u now
    have hid : payloadGet (jwtPayload u now) "id" = none := by
      simp [payloadGet, jwtPayload, List.lookup]
    refine ⟨by simp [jwtPayload], hid, ?_⟩
    intro db
    simp [get_current_user, hid]
    intro _ h2
    simp [truthy] at h2

/-- C4 witness: the rejection evaluated on the concrete access token
minted for `demoUser` at time 0, and on a bare payload with no `id`
claim. -/
theorem c4_minted_access_tokens_rejected_witness :
    get_current_user demoDb (jwtPayload demoUser 0)
        = .error .invalidTokenData
    ∧ get_current_user [] [("sub", ClaimValue.str "alice")]
        = .error .invalidTokenData :=
  ⟨(c4_minted_access_tokens_rejected_by_bearer.2 demoUser 0).2.2 demoDb,
   c4_minted_access_tokens_rejected_by_bearer.1
     [("sub", ClaimValue.str "alice")] [] (by decide)⟩

/-- C5: the rotation step fails with the revoked kind when the
`blacklist:<t>` key exists, fails with the unknown kind when the token
is not blacklisted and no `refresh_token:<t>` mapping exists (so an
unmapped, unblacklisted token is rejected), and on success deletes the
forward mapping, inserts the blacklist sentinel with the 3600-second
grace TTL, returns the user id stored under the forward mapping, and
touches no other key. -/
theorem c5_rotate_contract :
    ∀ (s : RedisState) (t : String),
      ((s.black t).isSome = true → rotate s t = .error .tokenRevoked)
      ∧ ((s.black t).isSome = false → s.forward t = none →
          rotate s t = .error .tokenUnknown)
      ∧ ∀ (user_id : String),
          (s.black t).isSome = false → s.forward t = some user_id →
          ∃ s1, rotate s t = .ok (user_id, s1)
            ∧ s1.forward t = none
            ∧ s1.black t = some BLACKLIST_GRACE_TTL
            ∧ ∀ x, x ≠ t → s1.forward x = s.forward x
                ∧ s1.black x = s.black x := by
  intro s t
  refine ⟨fun h => by simp [rotate, h], fun h hf => by simp [rotate, h, hf],
    ?_⟩
  intro user_id h hf
  refine ⟨{ forward := fun x => if x = t then none else s.forward x,
            black := fun x => if x = t then some BLACKLIST_GRACE_TTL
                              else s.black x },
    by simp [rotate, h, hf], by simp, by simp, ?_⟩
  intro x hx
  simp [hx]

/-- C5 witness: the three branches evaluated at concrete stores — a
blacklisted token, a token absent everywhere, and the registered token
`t1` of `demoStore`. -/
theorem c5_rotate_contract_witness :
    rotate { forward := fun _ => none,
             black := fun x => if x = "t1" then some 3600 else none } "t1"
        = .error .tokenRevoked
    ∧ rotate emptyRedis "t1" = .error .tokenUnknown
    ∧ ∃ s1, rotate demoStore "t1" = .ok ("u1", s1)
        ∧ s1.forward "t1" = none
        ∧ s1.black "t1" = some BLACKLIST_GRACE_TTL
        ∧ ∀ x, x ≠ "t1" → s1.forward x = demoStore.forward x
            ∧ s1.black x = demoStore.black x :=
  ⟨(c5_rotate_contract _ "t1").1 (by decide),
   (c5_rotate_contract emptyRedis "t1").2.1 rfl rfl,
   (c5_rotate_contract demoStore "t1").2.2 "u1" rfl (by decide)⟩

/-- C9: a successful refresh reissues the access token from the
principal as currently stored in the user directory, re-fetched by the
id found under the forward mapping — the payload's `sub`, `role` and
`group_id` claims are the directory-current ones (a refresh token itself
carries no claims to copy) — and registers the new refresh token in the
session store under that user's id. -/
theorem c9_refresh_mints_current_claims :
    ∀ (db : List User) (s : RedisState) (tOld tNew : String) (now : Nat)
      (user_id : String) (u : User),
      (s.black tOld).isSome = false →
      s.forward tOld = some user_id →
      get_user_by_id db user_id = some u →
      (process_token_refresh db s tOld tNew now).2 =
        .ok { access_token := jwtPayload u now, refresh_token := tNew }
      ∧ payloadGet (jwtPayload u now) "sub" = some (.str u.username)
      ∧ payloadGet (jwtPayload u now) "role" = some (.roleV u.role)
      ∧ payloadGet (jwtPayload u now) "group_id" = some (.optInt u.group_id)
      ∧ (process_token_refresh db s tOld tNew now).1.forward tNew
          = some u.id := by
  intro db s tOld tNew now user_id u hb hf hu
  refine ⟨?_, ?_, ?_, ?_, ?_⟩
  · simp [process_token_refresh, rotate, hb, hf, hu, create_user_tokens]
  · simp [payloadGet, jwtPayload, List.lookup]
  · simp [payloadGet, jwtPayload, List.lookup]
  · simp [payloadGet, jwtPayload, List.lookup]
  · simp [process_token_refresh, rotate, hb, hf, hu, create_user_tokens]

/-- C9 witness: the refresh of `t1` in the concrete store, with
`demoUser` in the directory; the minted payload carries the
directory-current role USER and group 1, and `t2` ends up registered. -/
theorem c9_refresh_mints_current_claims_witness :
    (process_token_refresh demoDb demoStore "t1" "t2" 5).2 =
      .ok { access_token := jwtPayload demoUser 5, refresh_token := "t2" }
    ∧ payloadGet (jwtPayload demoUser 5) "sub"
        = some (.str demoUser.username)
    ∧ payloadGet (jwtPayload demoUser 5) "role"
        = some (.roleV demoUser.role)
    ∧ payloadGet (jwtPayload demoUser 5) "group_id"
        = some (.optInt demoUser.group_id)
    ∧ (process_token_refresh demoDb demoStore "t1" "t2" 5).1.forward "t2"
        = some demoUser.id :=
  c9_refresh_mints_current_claims demoDb demoStore "t1" "t2" 5 "u1" demoUser
    (by decide) (by decide) (by decide)

/-- A refresh whose old token has no forward mapping is rejected as
InvalidToken, whether or not the token is blacklisted (both rotation
failures surface as the same `InvalidTokenError`). -/
theorem refresh_unmapped_invalid (db : List User) (s : RedisState)
    (t t2 : String) (now : Nat) (h : s.forward t = none) :
    (process_token_refresh db s t t2 now).2 = .error .invalidToken := by
  cases hb : (s.black t).isSome with
  | true => simp [process_token_refresh, rotate, hb]
  | false => simp [process_token_refresh, rotate, hb, h]

/-- One session-store operation that only registers tokens different
from `t` cannot recreate a forward mapping for `t`. -/
theorem stepOp_forward_none (db : List User) (t : String) (op : Op)
    (s : RedisState) (h : s.forward t = none)
    (hfresh : freshFor t op = true) :
    (stepOp db s op).forward t = none := by
  cases op with
  | login tNew user_id =>
    have hne : t ≠ tNew := by
      simp [freshFor] at hfresh
      exact fun e => hfresh e.symm
    simp [stepOp, hne, h]
  | refresh tOld tNew =>
    have hne : t ≠ tNew := by
      simp [freshFor] at hfresh
      exact fun e => hfresh e.symm
    simp only [stepOp]
    cases hb : (s.black tOld).isSome with
    | true => simp [process_token_refresh, rotate, hb, h]
    | false =>
      cases hfw : s.forward tOld with
      | none => simp [process_token_refresh, rotate, hb, hfw, h]
      | some uid =>
        cases hu : get_user_by_id db uid with
        | none =>
          simp [process_token_refresh, rotate, hb, hfw, hu]
          intro he
          exact h
        | some u =>
          simp [process_token_refresh, rotate, hb, hfw, hu,
            create_user_tokens, hne]
          intro he
          exact h
  | expireForward t3 =>
    simp [stepOp, h]
  | expireBlacklist t3 =>
    simpa [stepOp] using h

/-- Once the forward mapping of `t` is gone, no sequence of fresh-token
operations brings it back. -/
theorem execOps_forward_none (db : List User) (t : String) :
    ∀ (ops : List Op) (s : RedisState), s.forward t = none →
      (∀ op ∈ ops, freshFor t op = true) →
      (execOps db ops s).forward t = none := by
  intro ops
  induction ops with
  | nil => intro s h _; exact h
  | cons op rest ih =>
    intro s h hall
    have hop : freshFor t op = true := hall op (List.mem_cons_self _ _)
    have hrest : ∀ o ∈ rest, freshFor t o = true :=
      fun o ho => hall o (List.mem_cons_of_mem _ ho)
    exact ih (stepOp db s op) (stepOp_forward_none db t op s h hop) hrest

/-- C1: a registered refresh token is single-use.  With `t` registered
(forward mapping present, not blacklisted) and its owner in the user
directory, the first `refresh(t)` succeeds and returns a new token pair;
after it, under any sequence of further operations whose generated
tokens are fresh (never equal to `t`), the forward mapping of `t` stays
gone — the rotated token never returns from the revoked state to the
issued state — and every subsequent `refresh(t)` fails with
InvalidToken, even after the blacklist TTL lapses. -/
theorem c1_refresh_token_single_use :
    ∀ (db : List User) (s : RedisState) (t tNew : String) (now : Nat)
      (user_id : String) (u : User),
      (s.black t).isSome = false →
      s.forward t = some user_id →
      get_user_by_id db user_id = some u →
      tNew ≠ t →
      (process_token_refresh db s t tNew now).2 =
        .ok { access_token := jwtPayload u now, refresh_token := tNew }
      ∧ ∀ (ops : List Op), (∀ op ∈ ops, freshFor t op = true) →
          (execOps db ops
            (process_token_refresh db s t tNew now).1).forward t = none
          ∧ ∀ (t2 : String) (now2 : Nat),
              (process_token_refresh db
                (execOps db ops (process_token_refresh db s t tNew now).1)
                t t2 now2).2 = .error .invalidToken := by
  intro db s t tNew now user_id u hb hf hu hne
  have hpost : (process_token_refresh db s t tNew now).1.forward t = none := by
    simp [process_token_refresh, rotate, hb, hf, hu, create_user_tokens,
      Ne.symm hne]
  constructor
  · simp [process_token_refresh, rotate, hb, hf, hu, create_user_tokens]
  · intro ops hall
    have hexec := execOps_forward_none db t ops _ hpost hall
    exact ⟨hexec,
      fun t2 now2 => refresh_unmapped_invalid db _ t t2 now2 hexec⟩

/-- C1 witness: the lifecycle evaluated concretely — `t1` is registered
for `u1` in `demoStore`; the first refresh succeeds; after the sequence
`demoOps` (a later login, the blacklist TTL of `t1` lapsing, a replay of
`t1`, a refresh of an unknown token) the forward mapping of `t1` is
still gone and a further `refresh(t1)` is rejected as InvalidToken. -/
theorem c1_refresh_token_single_use_witness :
    (process_token_refresh demoDb demoStore "t1" "t2" 0).2 =
      .ok { access_token := jwtPayload demoUser 0, refresh_token := "t2" }
    ∧ (execOps demoDb demoOps
        (process_token_refresh demoDb demoStore "t1" "t2" 0).1).forward "t1"
        = none
    ∧ (process_token_refresh demoDb
        (execOps demoDb demoOps
          (process_token_refresh demoDb demoStore "t1" "t2" 0).1)
        "t1" "t6" 7).2 = .error .invalidToken := by
  have h := c1_refresh_token_single_use demoDb demoStore "t1" "t2" 0 "u1"
    demoUser (by decide) (by decide) (by decide) (by decide)
  exact ⟨h.1, (h.2 demoOps (by decide)).1, (h.2 demoOps (by decide)).2 "t6" 7⟩

end UMS
